import Mathlib

/-!
A shallow embedding of the image-generation backend: the response URL
extractor (errorHandling.js and styleImage.js variants), the Replicate
gateway error mapping (replicateService.js), the EXIF normalizer, the
daily-quota guard and usage store (generationLimitMiddleware / db-firebase),
the global error handler, and the POST /generate-image route composition.

JavaScript values reaching the extractor are modelled by a small closed
type: a string, an ordered sequence of items, a duck-typed object probed
for its url member / toString / alternate fields, or anything else.
Per the data model (spec section 3) a provider response sequence holds
strings or objects, not nested sequences.  The external collaborators
(sharp, the Replicate SDK, Firestore, RevenueCat) are parameters: sharp is
a fallible transform on the stripped base64 data, the provider is a
function from (model, input) to a response or an error message, the store
is the single relevant user document plus a read-fault flag, and the
subscription lookup is its boolean result (isUserSubscribed catches its
own errors and returns false, so it never throws).
-/

/-- What a duck-typed call (`fileOutput.url()` / `fileOutput.toString()`)
does: throws, or returns a string, or returns a non-string value. -/
inductive CallOutcome where
  | threw (msg : String)
  | retStr (s : String)
  | retNonStr
deriving DecidableEq

/-- The `url` member of a response object: a callable method, a plain
string property, some other (non-function, non-string) value with the
given truthiness, or absent. -/
inductive UrlField where
  | func (call : CallOutcome)
  | strProp (s : String)
  | otherProp (truthy : Bool)
  | absent
deriving DecidableEq

/-- The `toString` member: callable, or not a function. -/
inductive ToStrField where
  | func (call : CallOutcome)
  | notFunc
deriving DecidableEq

/-- A duck-typed provider response object.  `path`/`uri`/`href`/`link`
(and `dataF`, the `data` key probed only by styleImage.js) are the
alternate keys: `some s` when present as a string, `none` when absent or
not a string (a non-string value never passes the probes). -/
structure FileObj where
  urlField : UrlField
  toStr : ToStrField
  path : Option String
  uri : Option String
  href : Option String
  link : Option String
  dataF : Option String
deriving DecidableEq

/-- An element of a provider response sequence (spec section 3: a URL
string or a URL-bearing object; `other` covers null / numbers / etc.). -/
inductive RespItem where
  | str (s : String)
  | obj (o : FileObj)
  | other
deriving DecidableEq

/-- A provider response value. -/
inductive ProviderResponse where
  | str (s : String)
  | arr (items : List RespItem)
  | obj (o : FileObj)
  | other
deriving DecidableEq

/-- The two throw sites of the extractor. -/
inductive ExtractErr where
  | noUrl
  | fileOutputNoUrl
deriving DecidableEq

/-- First-some choice on options (JavaScript early return from probes). -/
def orO (a b : Option String) : Option String :=
  match a with
  | some s => some s
  | none => b

/-- Boolean prefix test on character lists (kernel-reducible). -/
def listIsPrefixB : List Char → List Char → Bool
  | [], _ => true
  | _ :: _, [] => false
  | a :: as, b :: bs => a == b && listIsPrefixB as bs

/-- JavaScript String.prototype.startsWith. -/
def jsStartsWith (s pre : String) : Bool :=
  listIsPrefixB pre.toList s.toList

/-- errorHandling.js probe (a): `url()` result accepted when truthy, a
string, and startsWith http. -/
def probeUrlMethodChecked (o : FileObj) : Option String :=
  match o.urlField with
  | UrlField.func (CallOutcome.retStr u) =>
      if u.isEmpty then none
      else if jsStartsWith u "http" then some u else none
  | _ => none

/-- styleImage.js probe (a): `url()` result accepted when truthy and a
string; no scheme check. -/
def probeUrlMethodUnchecked (o : FileObj) : Option String :=
  match o.urlField with
  | UrlField.func (CallOutcome.retStr u) =>
      if u.isEmpty then none else some u
  | _ => none

/-- Probe (b): a string-valued `url` property that startsWith http. -/
def probeUrlProp (o : FileObj) : Option String :=
  match o.urlField with
  | UrlField.strProp s => if jsStartsWith s "http" then some s else none
  | _ => none

/-- Probe (c): `toString()` returning a string that startsWith http. -/
def probeToStringHttp (o : FileObj) : Option String :=
  match o.toStr with
  | ToStrField.func (CallOutcome.retStr s) =>
      if jsStartsWith s "http" then some s else none
  | _ => none

/-- Probe (d) on one alternate key: truthy, a string, startsWith http. -/
def probeAltKey (v : Option String) : Option String :=
  match v with
  | some s =>
      if s.isEmpty then none
      else if jsStartsWith s "http" then some s else none
  | none => none

namespace ErrorHandlingJs

/-- errorHandling.js alternativeKeys = [path, uri, href, link]. -/
def altChain (o : FileObj) : Option String :=
  orO (probeAltKey o.path)
    (orO (probeAltKey o.uri) (orO (probeAltKey o.href) (probeAltKey o.link)))

/-- errorHandling.js extractFromFileOutput: url() method, url property,
toString(), then the alternate keys; throws when all fail. -/
def extractFromFileOutput (o : FileObj) : Except ExtractErr String :=
  match orO (probeUrlMethodChecked o)
      (orO (probeUrlProp o) (orO (probeToStringHttp o) (altChain o))) with
  | some u => Except.ok u
  | none => Except.error ExtractErr.fileOutputNoUrl

/-- errorHandling.js extractImageUrl: direct http string; non-empty array
whose first item is an http string or an object; single object; otherwise
throws. -/
def extractImageUrl : ProviderResponse → Except ExtractErr String
  | ProviderResponse.str s =>
      if jsStartsWith s "http" then Except.ok s else Except.error ExtractErr.noUrl
  | ProviderResponse.arr [] => Except.error ExtractErr.noUrl
  | ProviderResponse.arr (item :: _) =>
      match item with
      | RespItem.str s =>
          if jsStartsWith s "http" then Except.ok s else Except.error ExtractErr.noUrl
      | RespItem.obj o => extractFromFileOutput o
      | RespItem.other => Except.error ExtractErr.noUrl
  | ProviderResponse.obj o => extractFromFileOutput o
  | ProviderResponse.other => Except.error ExtractErr.noUrl

end ErrorHandlingJs

namespace StyleImageJs

/-- styleImage.js alternatives = [path, uri, href, link, data]. -/
def altChain (o : FileObj) : Option String :=
  orO (probeAltKey o.path)
    (orO (probeAltKey o.uri)
      (orO (probeAltKey o.href) (orO (probeAltKey o.link) (probeAltKey o.dataF))))

/-- styleImage.js extractFromFileOutput: the url() probe takes any truthy
string (no scheme check), then url property, toString(), alternates. -/
def extractFromFileOutput (o : FileObj) : Except ExtractErr String :=
  match orO (probeUrlMethodUnchecked o)
      (orO (probeUrlProp o) (orO (probeToStringHttp o) (altChain o))) with
  | some u => Except.ok u
  | none => Except.error ExtractErr.fileOutputNoUrl

/-- styleImage.js extractImageUrl (same case order as errorHandling.js). -/
def extractImageUrl : ProviderResponse → Except ExtractErr String
  | ProviderResponse.str s =>
      if jsStartsWith s "http" then Except.ok s else Except.error ExtractErr.noUrl
  | ProviderResponse.arr [] => Except.error ExtractErr.noUrl
  | ProviderResponse.arr (item :: _) =>
      match item with
      | RespItem.str s =>
          if jsStartsWith s "http" then Except.ok s else Except.error ExtractErr.noUrl
      | RespItem.obj o => extractFromFileOutput o
      | RespItem.other => Except.error ExtractErr.noUrl
  | ProviderResponse.obj o => extractFromFileOutput o
  | ProviderResponse.other => Except.error ExtractErr.noUrl

end StyleImageJs

/-- A scheme-prefixed string per the claims (the check the source applies
everywhere: the string startsWith http). -/
def httpOpt (s : String) : Option String :=
  if jsStartsWith s "http" then some s else none

/-- Claim C1 wording: a URL-accessor object yields its URL through the
url() method or the url string property (the two accessor conventions,
method first). -/
def claimUrlAccessor (o : FileObj) : Option String :=
  orO (probeUrlMethodChecked o) (probeUrlProp o)

/-- Claim C1 wording: the URL exposed under an alternate field name
(path / uri / href / link, first match). -/
def claimAltFields (o : FileObj) : Option String :=
  ErrorHandlingJs.altChain o

/-- The supported shapes exactly as claim C1 enumerates them: a bare
http string, a non-empty sequence whose first element is an http string,
a non-empty sequence whose first element is a URL-accessor object, a
single URL-accessor object, or an object with an alternate URL field.
`none` means the response is of no supported shape. -/
def extractUrlClaimC1 : ProviderResponse → Option String
  | ProviderResponse.str s => httpOpt s
  | ProviderResponse.arr [] => none
  | ProviderResponse.arr (item :: _) =>
      match item with
      | RespItem.str s => httpOpt s
      | RespItem.obj o => claimUrlAccessor o
      | RespItem.other => none
  | ProviderResponse.obj o => claimUrlAccessor o
  | ProviderResponse.other => none

/-- Amended claim C1, object rules: accessor conventions, then the
string-conversion (toString) convention, then the alternate fields. -/
def amendedObjUrl (o : FileObj) : Option String :=
  orO (claimUrlAccessor o) (orO (probeToStringHttp o) (claimAltFields o))

/-- Amended claim C1 supported shapes: as claimed, plus the
string-conversion convention in the object priority chain, and a
sequence's first object element handled by the full object chain. -/
def extractUrlAmendedC1 : ProviderResponse → Option String
  | ProviderResponse.str s => httpOpt s
  | ProviderResponse.arr [] => none
  | ProviderResponse.arr (item :: _) =>
      match item with
      | RespItem.str s => httpOpt s
      | RespItem.obj o => amendedObjUrl o
      | RespItem.other => none
  | ProviderResponse.obj o => amendedObjUrl o
  | ProviderResponse.other => none

/-- The later probes of errorHandling.js extractFromFileOutput (after the
two url-member probes): toString(), then the alternate keys. -/
def laterProbesChecked (o : FileObj) : Except ExtractErr String :=
  match orO (probeToStringHttp o) (ErrorHandlingJs.altChain o) with
  | some u => Except.ok u
  | none => Except.error ExtractErr.fileOutputNoUrl

/-- Strips a leading data-URI prefix, the regex
`^data:image\/[^;]+;base64,` of normalizeImageExif: `data:image/`, then
one or more non-semicolon characters, then `;base64,`. -/
def stripDataUri (s : String) : String :=
  if jsStartsWith s "data:image/" then
    let rest := s.drop 11
    let seg := rest.takeWhile (fun c => c != ';')
    if seg.isEmpty then s
    else if jsStartsWith (rest.drop seg.length) ";base64," then
      rest.drop (seg.length + 8)
    else s
  else s

/-- styleImage.js normalizeImageExif (the identical function also sits in
errorHandling.js and textToImg.js): strip the data-URI prefix, run the
sharp rotate/re-encode pipeline (the `sharp` parameter, which may fail),
re-wrap as a JPEG data URI; on any error return the original input. -/
def normalizeImageExif (sharp : String → Except Unit String)
    (base64Image : String) : String :=
  match sharp (stripDataUri base64Image) with
  | Except.ok processed => "data:image/jpeg;base64," ++ processed
  | Except.error _ => base64Image

/-- styleImage.js normalizeImageArrayExif: empty input returned as is,
otherwise normalizeImageExif applied to every element (the Promise.all
order is the input order; the catch is unreachable because
normalizeImageExif never rejects). -/
def normalizeImageArrayExif (sharp : String → Except Unit String)
    (imageArray : List String) : List String :=
  if imageArray.isEmpty then imageArray
  else imageArray.map (normalizeImageExif sharp)

/-- An element of an image-array field of the /generate-image payload:
only string elements are normalized, others pass through. -/
inductive PayloadItem where
  | str (s : String)
  | nonStr
deriving DecidableEq

/-- An image field value of the payload: a single string, an array, or
some other truthy value (left untouched). -/
inductive ImgField where
  | single (s : String)
  | multi (items : List PayloadItem)
  | otherVal
deriving DecidableEq

/-- The /generate-image request payload: the prompt plus the image field
names textToImg.js normalizePayloadImages recognizes. -/
structure InputPayload where
  prompt : Option String
  image : Option ImgField
  image_input : Option ImgField
  reference_image : Option ImgField
  conditioning_image : Option ImgField
  mask_image : Option ImgField
deriving DecidableEq

/-- One field of normalizePayloadImages: a non-empty string is normalized
(an empty string is falsy and skipped), an array is mapped with the
string test per element, anything else is left unchanged. -/
def normalizeField (sharp : String → Except Unit String) :
    Option ImgField → Option ImgField
  | none => none
  | some (ImgField.single s) =>
      if s.isEmpty then some (ImgField.single s)
      else some (ImgField.single (normalizeImageExif sharp s))
  | some (ImgField.multi items) =>
      some (ImgField.multi (items.map (fun it =>
        match it with
        | PayloadItem.str s => PayloadItem.str (normalizeImageExif sharp s)
        | PayloadItem.nonStr => PayloadItem.nonStr)))
  | some ImgField.otherVal => some ImgField.otherVal

/-- textToImg.js normalizePayloadImages over the recognized field names. -/
def normalizePayloadImages (sharp : String → Except Unit String)
    (p : InputPayload) : InputPayload :=
  { p with
    image := normalizeField sharp p.image,
    image_input := normalizeField sharp p.image_input,
    reference_image := normalizeField sharp p.reference_image,
    conditioning_image := normalizeField sharp p.conditioning_image,
    mask_image := normalizeField sharp p.mask_image }

/-- The value runReplicateModel throws: an Error with its message and,
for the mapped cases, a userMessage attached. -/
structure ThrownError where
  message : String
  userMessage : Option String
deriving DecidableEq

/-- Boolean infix test on character lists. -/
def listIsInfixB : List Char → List Char → Bool
  | pat, [] => pat.isEmpty
  | pat, b :: rest => listIsPrefixB pat (b :: rest) || listIsInfixB pat rest

/-- JavaScript String.prototype.includes. -/
def jsIncludes (s pat : String) : Bool :=
  listIsInfixB pat.toList s.toList

/-- replicateService.js catch block: the ordered substring checks on the
provider error message, first match wins; an unmatched message is
re-thrown unmodified (no userMessage). -/
def mapReplicateError (msg : String) : ThrownError :=
  if jsIncludes msg "NSFW content detected" then
    ⟨"NSFW_BLOCKED", some "The design could not be generated because it was flagged as adult content. Try a different design or adjust your prompt to be more specific."⟩
  else if jsIncludes msg "flagged as sensitive" then
    ⟨"NSFW_BLOCKED", some "The generated design was flagged as sensitive content. Please try a different design or adjust your prompt."⟩
  else if jsIncludes msg "402" then
    ⟨"PAYMENT_REQUIRED", some "Insufficient credit to generate images."⟩
  else if jsIncludes msg "Prediction failed" then
    ⟨"GENERATION_FAILED", some "Failed to generate. Please try again."⟩
  else if jsIncludes msg "rate limit" || jsIncludes msg "429" then
    ⟨"GENERATION_FAILED", some "Service is busy. Please try again in a moment."⟩
  else ⟨msg, none⟩

/-- replicateService.js runReplicateModel: run the provider (the external
SDK is the `provider` parameter, failing with an error message) and remap
a failure through the catch block. -/
def runReplicateModel
    (provider : String → InputPayload → Except String ProviderResponse)
    (model : String) (input : InputPayload) :
    Except ThrownError ProviderResponse :=
  match provider model input with
  | Except.ok output => Except.ok output
  | Except.error msg => Except.error (mapReplicateError msg)

/-- Failure modes of textToImg.js generateImage. -/
inductive GenErr where
  | validationPrompt
  | thrown (e : ThrownError)
  | noImageUrl
  | urlNotFunction
  | urlThrew (msg : String)
deriving DecidableEq

/-- Truthiness of `imageOutput` in generateImage (`other` covers values
such as null or numbers whose url member is undefined anyway). -/
def itemTruthy : RespItem → Bool
  | RespItem.str s => !s.isEmpty
  | RespItem.obj _ => true
  | RespItem.other => false

/-- Truthiness of `imageOutput.url` in generateImage. -/
def urlMemberTruthy : RespItem → Bool
  | RespItem.obj o =>
      match o.urlField with
      | UrlField.func _ => true
      | UrlField.strProp s => !s.isEmpty
      | UrlField.otherProp t => t
      | UrlField.absent => false
  | _ => false

/-- What a call to the url member returns to generateImage. -/
inductive UrlCallValue where
  | str (s : String)
  | nonStr
deriving DecidableEq

/-- textToImg.js generateImage lines 104-113: take output[0] when the
output is an array, else the output itself; when it and its url member
are truthy, return `imageOutput.url()` (a TypeError when url is not a
function, the exception when the call throws); otherwise throw
"Model ran successfully but returned no image URL.". -/
def inlineExtract (output : ProviderResponse) : Except GenErr UrlCallValue :=
  match (match output with
    | ProviderResponse.arr items => items.head?
    | ProviderResponse.str s => some (RespItem.str s)
    | ProviderResponse.obj o => some (RespItem.obj o)
    | ProviderResponse.other => some RespItem.other) with
  | none => Except.error GenErr.noImageUrl
  | some item =>
      if itemTruthy item && urlMemberTruthy item then
        match item with
        | RespItem.obj o =>
            match o.urlField with
            | UrlField.func (CallOutcome.retStr s) => Except.ok (UrlCallValue.str s)
            | UrlField.func CallOutcome.retNonStr => Except.ok UrlCallValue.nonStr
            | UrlField.func (CallOutcome.threw m) => Except.error (GenErr.urlThrew m)
            | _ => Except.error GenErr.urlNotFunction
        | _ => Except.error GenErr.noImageUrl
      else Except.error GenErr.noImageUrl

/-- Truthiness of the payload prompt. -/
def promptTruthy (p : InputPayload) : Bool :=
  match p.prompt with
  | some s => !s.isEmpty
  | none => false

/-- textToImg.js generateImage: validate the prompt, normalize the
payload images, run google/imagen-4 through runReplicateModel, then the
inline url-member extraction. -/
def generateImage (sharp : String → Except Unit String)
    (provider : String → InputPayload → Except String ProviderResponse)
    (inputPayload : InputPayload) : Except GenErr UrlCallValue :=
  if !promptTruthy inputPayload then Except.error GenErr.validationPrompt
  else
    match runReplicateModel provider "google/imagen-4"
        (normalizePayloadImages sharp inputPayload) with
    | Except.error t => Except.error (GenErr.thrown t)
    | Except.ok output => inlineExtract output

/-- The per-user Firestore document (lastUpdated is not modelled: nothing
reads it). -/
structure UserDoc where
  generationCount : Nat
  generationDate : String
deriving DecidableEq

def DAILY_LIMIT : Nat := 5

/-- db-firebase.js getTodayGenerationCount for one user: a read fault is
caught and yields 0 with no write; a missing document yields 0; a
document from another day is reset to zero for today (a write) and
yields 0; otherwise the stored count.  Returns (count, store after). -/
def getTodayGenerationCount (today : String) (readFails : Bool)
    (store : Option UserDoc) : Nat × Option UserDoc :=
  if readFails then (0, store)
  else
    match store with
    | none => (0, none)
    | some data =>
        if data.generationDate ≠ today then (0, some ⟨0, today⟩)
        else (data.generationCount, store)

/-- db-firebase.js incrementGenerationCount: read the current count (0
when the document is missing), write count + 1 with today as the date;
no date comparison, hence no reset of a stale count. -/
def incrementGenerationCount (today : String) (store : Option UserDoc) :
    Option UserDoc :=
  match store with
  | some data => some ⟨data.generationCount + 1, today⟩
  | none => some ⟨1, today⟩

/-- Outcome of the checkGenerationLimit middleware. -/
inductive GuardOutcome where
  | missingUserId
  | allowedSubscribed
  | denied
  | allowedFree (count remaining : Nat)
deriving DecidableEq

/-- generationLimitMiddleware checkGenerationLimit: missing userId is a
400; a subscribed user passes with no limit check; else the count for
today decides between the 429 denial and passing with
remaining = DAILY_LIMIT - count.  The catch branch (a 500) is
unreachable here: isUserSubscribed and getTodayGenerationCount both
catch their own errors.  Returns (outcome, store after). -/
def checkGenerationLimit (today : String) (userId : Option String)
    (isSubscribed : Bool) (readFails : Bool) (store : Option UserDoc) :
    GuardOutcome × Option UserDoc :=
  match userId with
  | none => (GuardOutcome.missingUserId, store)
  | some _ =>
      if isSubscribed then (GuardOutcome.allowedSubscribed, store)
      else
        let rc := getTodayGenerationCount today readFails store
        if rc.1 ≥ DAILY_LIMIT then (GuardOutcome.denied, rc.2)
        else (GuardOutcome.allowedFree rc.1 (DAILY_LIMIT - rc.1), rc.2)

/-- A JSON response body: `none` marks an absent key. -/
structure Body where
  success : Option Bool
  error : Option String
  message : Option String
  remaining : Option Nat
  imageUrl : Option String
  isSubscribed : Option Bool
deriving DecidableEq

def emptyBody : Body := ⟨none, none, none, none, none, none⟩

/-- The error value errorHandler inspects. -/
structure ErrInfo where
  message : String
  userMessage : Option String
  statusCode : Option Nat
  errorField : Option String
deriving DecidableEq

/-- JavaScript `a || d` on an optional string (an empty string is falsy). -/
def jsOr (v : Option String) (d : String) : String :=
  match v with
  | some s => if s.isEmpty then d else s
  | none => d

/-- The final branch of errorHandler: 500 Internal Server Error. -/
def errorHandlerDefault (err : ErrInfo) : Nat × Body :=
  (500, { emptyBody with
    success := some false,
    error := some "Internal Server Error",
    message := some (if err.message.isEmpty then "An unexpected error occurred." else err.message) })

/-- errorHandling.js errorHandler: the NSFW / payment / generation-failed
messages, the Prediction-failed substring, a 4xx statusCode validation
error, then the 500 default. -/
def errorHandler (err : ErrInfo) : Nat × Body :=
  if err.message = "NSFW_BLOCKED" then
    (400, { emptyBody with
      success := some false,
      error := some "NSFW_BLOCKED",
      message := some (jsOr err.userMessage "The design could not be generated due to content safety filters. Please try a different prompt.") })
  else if err.message = "PAYMENT_REQUIRED" then
    (402, { emptyBody with
      success := some false,
      error := some "PAYMENT_REQUIRED",
      message := some (jsOr err.userMessage "Insufficient credit to generate images.") })
  else if err.message = "GENERATION_FAILED" then
    (500, { emptyBody with
      success := some false,
      error := some "GENERATION_FAILED",
      message := some (jsOr err.userMessage "Failed to generate. Please try again.") })
  else if jsIncludes err.message "Prediction failed" then
    (500, { emptyBody with
      success := some false,
      error := some "GENERATION_FAILED",
      message := some "Failed to generate. Please try again." })
  else
    match err.statusCode with
    | some c =>
        if 400 ≤ c ∧ c < 500 then
          (c, { emptyBody with
            success := some false,
            error := some (jsOr err.errorField "Validation Error"),
            message := some err.message })
        else errorHandlerDefault err
    | none => errorHandlerDefault err

/-- The inline 400 body of checkGenerationLimit when userId is missing. -/
def userIdRequiredBody : Body :=
  { emptyBody with error := some "userId is required in request body" }

/-- The inline 429 body of checkGenerationLimit at the daily limit. -/
def limitReachedBody : Body :=
  { emptyBody with
    error := some "Daily generation limit reached",
    message := some "You have reached your daily limit of 5 generations. Upgrade to Pro!",
    remaining := some 0 }

/-- The inline 500 body of the checkGenerationLimit catch branch. -/
def verifyFailedBody : Body :=
  { emptyBody with error := some "Failed to verify generation limit" }

/-- The inline 400 body of the /generate-image route prompt check. -/
def promptRequiredBody : Body :=
  { emptyBody with error := some "A valid input object with a prompt is required." }

/-- How a generateImage failure reaches errorHandler through next(error). -/
def genErrToErrInfo : GenErr → ErrInfo
  | GenErr.validationPrompt => ⟨"Prompt is required for image generation", none, none, none⟩
  | GenErr.thrown t => ⟨t.message, t.userMessage, none, none⟩
  | GenErr.noImageUrl => ⟨"Model ran successfully but returned no image URL.", none, none, none⟩
  | GenErr.urlNotFunction => ⟨"imageOutput.url is not a function", none, none, none⟩
  | GenErr.urlThrew m => ⟨m, none, none, none⟩

/-- The 200 body of the /generate-image route. -/
def successBody (v : UrlCallValue) (remaining : Option Nat) (isSub : Bool) :
    Body :=
  { emptyBody with
    success := some true,
    imageUrl := (match v with
      | UrlCallValue.str s => some s
      | UrlCallValue.nonStr => none),
    remaining := remaining,
    isSubscribed := some isSub }

/-- Whether a generateImage failure happened after the provider call. -/
def providerReached : GenErr → Bool
  | GenErr.validationPrompt => false
  | _ => true

/-- The observable result of one POST /generate-image request. -/
structure RouteResult where
  status : Nat
  body : Body
  store : Option UserDoc
  increments : Nat
  providerCalled : Bool
deriving DecidableEq

/-- The /generate-image route handler body (after the middleware let the
request through): prompt check, generateImage, increment for a free user
after success, 200 with imageUrl / remaining / isSubscribed; an error
goes to errorHandler via next(error). -/
def routeGenerateCore (today : String) (isSub : Bool)
    (remaining : Option Nat) (store : Option UserDoc)
    (sharp : String → Except Unit String)
    (provider : String → InputPayload → Except String ProviderResponse)
    (payload : InputPayload) : RouteResult :=
  if !promptTruthy payload then ⟨400, promptRequiredBody, store, 0, false⟩
  else
    match generateImage sharp provider payload with
    | Except.error e =>
        let r := errorHandler (genErrToErrInfo e)
        ⟨r.1, r.2, store, 0, providerReached e⟩
    | Except.ok v =>
        if isSub then ⟨200, successBody v remaining true, store, 0, true⟩
        else ⟨200, successBody v remaining false,
          incrementGenerationCount today store, 1, true⟩

/-- POST /generate-image end to end: checkGenerationLimit, then the route
handler with the isSubscribed / remaining values the middleware stored on
the request. -/
def handleGenerateImage (today : String) (userId : Option String)
    (isSubscribed : Bool) (readFails : Bool) (store : Option UserDoc)
    (sharp : String → Except Unit String)
    (provider : String → InputPayload → Except String ProviderResponse)
    (payload : InputPayload) : RouteResult :=
  match checkGenerationLimit today userId isSubscribed readFails store with
  | (GuardOutcome.missingUserId, st) => ⟨400, userIdRequiredBody, st, 0, false⟩
  | (GuardOutcome.denied, st) => ⟨429, limitReachedBody, st, 0, false⟩
  | (GuardOutcome.allowedSubscribed, st) =>
      routeGenerateCore today true none st sharp provider payload
  | (GuardOutcome.allowedFree _ remaining, st) =>
      routeGenerateCore today false (some remaining) st sharp provider payload

/-- The envelope claim C6 states for every error body: exactly
success = false, an error kind and a message, nothing else. -/
def bodyEnvelope (b : Body) : Prop :=
  b.success = some false ∧ b.error.isSome = true ∧ b.message.isSome = true ∧
    b.remaining = none ∧ b.imageUrl = none ∧ b.isSubscribed = none

/-! Concrete fixtures used by witnesses and counterexamples. -/

/-- A sharp pipeline that always fails (fixture). -/
def sharpFailCex : String → Except Unit String := fun _ => Except.error ()

/-- The request body of the end-to-end scenario: prompt "a cat". -/
def payloadCat : InputPayload := ⟨some "a cat", none, none, none, none, none⟩

/-- A provider returning a bare URL string (fixture). -/
def providerStrCex : String → InputPayload → Except String ProviderResponse :=
  fun _ _ => Except.ok (ProviderResponse.str "http://img.example/cat.png")

/-- A FileOutput-style object whose url() returns an http URL (fixture). -/
def imgUrlObj : FileObj :=
  ⟨UrlField.func (CallOutcome.retStr "http://img.example/ok.png"),
    ToStrField.notFunc, none, none, none, none, none⟩

/-- A provider returning a single FileOutput-style object (fixture). -/
def providerObjCex : String → InputPayload → Except String ProviderResponse :=
  fun _ _ => Except.ok (ProviderResponse.obj imgUrlObj)

/-- An object exposing a URL only through toString() (fixture). -/
def cexToStringObj : FileObj :=
  ⟨UrlField.absent, ToStrField.func (CallOutcome.retStr "http://cdn.example/out.png"),
    none, none, none, none, none⟩

/-- An object exposing a URL only under the alternate key path (fixture). -/
def cexAltOnlyObj : FileObj :=
  ⟨UrlField.absent, ToStrField.notFunc, some "http://alt.example/a.png",
    none, none, none, none⟩

/-- An object whose url() returns a non-http string (fixture). -/
def cexNonHttpAccessorObj : FileObj :=
  ⟨UrlField.func (CallOutcome.retStr "file:///tmp/out.png"),
    ToStrField.notFunc, none, none, none, none, none⟩

/-! Helper lemmas. -/

lemma orO_assoc (a b c : Option String) :
    orO (orO a b) c = orO a (orO b c) := by
  cases a <;> rfl

lemma orO_eq_some (a b : Option String) (u : String)
    (h : orO a b = some u) : a = some u ∨ b = some u := by
  cases a with
  | none => exact Or.inr h
  | some x => exact Or.inl h

lemma probeUrlMethodChecked_http (o : FileObj) (u : String)
    (h : probeUrlMethodChecked o = some u) : jsStartsWith u "http" = true := by
  unfold probeUrlMethodChecked at h
  split at h
  · split at h
    · simp_all
    · split at h <;> simp_all
  · simp_all

lemma probeUrlProp_http (o : FileObj) (u : String)
    (h : probeUrlProp o = some u) : jsStartsWith u "http" = true := by
  unfold probeUrlProp at h
  split at h
  case _ => split at h <;> simp_all
  case _ => simp_all

lemma probeToStringHttp_http (o : FileObj) (u : String)
    (h : probeToStringHttp o = some u) : jsStartsWith u "http" = true := by
  unfold probeToStringHttp at h
  split at h
  case _ => split at h <;> simp_all
  case _ => simp_all

lemma probeAltKey_http (v : Option String) (u : String)
    (h : probeAltKey v = some u) : jsStartsWith u "http" = true := by
  unfold probeAltKey at h
  split at h
  · split at h
    · simp_all
    · split at h <;> simp_all
  · simp_all

lemma altChain_http (o : FileObj) (u : String)
    (h : ErrorHandlingJs.altChain o = some u) : jsStartsWith u "http" = true := by
  unfold ErrorHandlingJs.altChain at h
  rcases orO_eq_some _ _ _ h with h1 | h1
  · exact probeAltKey_http _ _ h1
  rcases orO_eq_some _ _ _ h1 with h2 | h2
  · exact probeAltKey_http _ _ h2
  rcases orO_eq_some _ _ _ h2 with h3 | h3
  · exact probeAltKey_http _ _ h3
  · exact probeAltKey_http _ _ h3

lemma amendedObjUrl_eq (o : FileObj) :
    amendedObjUrl o =
      orO (probeUrlMethodChecked o)
        (orO (probeUrlProp o)
          (orO (probeToStringHttp o) (ErrorHandlingJs.altChain o))) := by
  unfold amendedObjUrl claimUrlAccessor claimAltFields
  rw [orO_assoc]

lemma extractFromFileOutput_eq_amended (o : FileObj) :
    ErrorHandlingJs.extractFromFileOutput o =
      (match amendedObjUrl o with
        | some u => Except.ok u
        | none => Except.error ExtractErr.fileOutputNoUrl) := by
  unfold ErrorHandlingJs.extractFromFileOutput
  rw [amendedObjUrl_eq]

/-! Claim C1. -/

/-- Claim C1 counterexample: the claim says every response outside its
five supported shapes fails with an ExtractionError, but an object whose
URL comes only from toString() (and a sequence whose first element is an
object with only an alternate URL field) are outside the enumeration and
extractImageUrl still returns their URL. -/
theorem extractImageUrl_claim_counterexample :
    extractUrlClaimC1 (ProviderResponse.obj cexToStringObj) = none ∧
    ErrorHandlingJs.extractImageUrl (ProviderResponse.obj cexToStringObj) =
      Except.ok "http://cdn.example/out.png" ∧
    extractUrlClaimC1 (ProviderResponse.arr [RespItem.obj cexAltOnlyObj]) = none ∧
    ErrorHandlingJs.extractImageUrl (ProviderResponse.arr [RespItem.obj cexAltOnlyObj]) =
      Except.ok "http://alt.example/a.png" :=
  ⟨rfl, rfl, rfl, rfl⟩

/-- Claim C1 (amended): extractImageUrl returns the contained URL exactly
for the amended supported shapes (the claimed five, plus the toString
string-conversion convention in the object priority chain, and a
sequence's first object element handled by that full chain), and fails
with an ExtractionError exactly for every other response. -/
theorem extractImageUrl_shape_dichotomy :
    ∀ r : ProviderResponse,
    (∀ u : String,
      ErrorHandlingJs.extractImageUrl r = Except.ok u ↔ extractUrlAmendedC1 r = some u) ∧
    ((∃ e, ErrorHandlingJs.extractImageUrl r = Except.error e) ↔
      extractUrlAmendedC1 r = none) := by
  intro r
  cases r with
  | str s =>
      unfold ErrorHandlingJs.extractImageUrl extractUrlAmendedC1 httpOpt
      cases hb : jsStartsWith s "http" <;> simp [hb]
  | arr items =>
      cases items with
      | nil => simp [ErrorHandlingJs.extractImageUrl, extractUrlAmendedC1]
      | cons hd tl =>
          cases hd with
          | str s =>
              unfold ErrorHandlingJs.extractImageUrl extractUrlAmendedC1 httpOpt
              cases hb : jsStartsWith s "http" <;> simp [hb]
          | obj o =>
              have h := extractFromFileOutput_eq_amended o
              simp only [ErrorHandlingJs.extractImageUrl, extractUrlAmendedC1]
              rw [h]
              cases amendedObjUrl o <;> simp
          | other => simp [ErrorHandlingJs.extractImageUrl, extractUrlAmendedC1]
  | obj o =>
      have h := extractFromFileOutput_eq_amended o
      simp only [ErrorHandlingJs.extractImageUrl, extractUrlAmendedC1]
      rw [h]
      cases amendedObjUrl o <;> simp
  | other => simp [ErrorHandlingJs.extractImageUrl, extractUrlAmendedC1]

/-- Witness for the amended claim C1 at a bare URL string response. -/
theorem extractImageUrl_shape_dichotomy_witness :
    ErrorHandlingJs.extractImageUrl (ProviderResponse.str "http://img.example/cat.png") =
      Except.ok "http://img.example/cat.png" :=
  ((extractImageUrl_shape_dichotomy
      (ProviderResponse.str "http://img.example/cat.png")).1
    "http://img.example/cat.png").mpr rfl

/-! Claim C2. -/

/-- Claim C2 (code bug): the claim (and the fail-secure comment in
checkGenerationLimit) says a usage-store read fault results in Denied,
but getTodayGenerationCount catches the fault and returns 0, so an
unsubscribed user whose stored count is 9 is admitted as Allowed-Free
with remaining 5 and the guarded endpoint and provider still run. -/
theorem storeFault_admits_request :
    checkGenerationLimit "d1" (some "u1") false true (some ⟨9, "d1"⟩) =
      (GuardOutcome.allowedFree 0 5, some ⟨9, "d1"⟩) ∧
    (handleGenerateImage "d1" (some "u1") false true (some ⟨9, "d1"⟩)
        sharpFailCex providerObjCex payloadCat).status = 200 ∧
    (handleGenerateImage "d1" (some "u1") false true (some ⟨9, "d1"⟩)
        sharpFailCex providerObjCex payloadCat).providerCalled = true :=
  ⟨rfl, rfl, rfl⟩

/-! Claim C3. -/

/-- Claim C3: runReplicateModel maps a provider error by the ordered
substring checks, first match wins: NSFW content detected, flagged as
sensitive, 402, Prediction failed, then 429 / rate limit; an unmatched
message propagates unmodified (no userMessage). -/
theorem runReplicateModel_error_mapping :
    ∀ (provider : String → InputPayload → Except String ProviderResponse)
      (model : String) (input : InputPayload) (msg : String),
    (provider model input = Except.error msg →
      jsIncludes msg "NSFW content detected" = true →
      runReplicateModel provider model input = Except.error
        ⟨"NSFW_BLOCKED", some "The design could not be generated because it was flagged as adult content. Try a different design or adjust your prompt to be more specific."⟩) ∧
    (provider model input = Except.error msg →
      jsIncludes msg "NSFW content detected" = false →
      jsIncludes msg "flagged as sensitive" = true →
      runReplicateModel provider model input = Except.error
        ⟨"NSFW_BLOCKED", some "The generated design was flagged as sensitive content. Please try a different design or adjust your prompt."⟩) ∧
    (provider model input = Except.error msg →
      jsIncludes msg "NSFW content detected" = false →
      jsIncludes msg "flagged as sensitive" = false →
      jsIncludes msg "402" = true →
      runReplicateModel provider model input = Except.error
        ⟨"PAYMENT_REQUIRED", some "Insufficient credit to generate images."⟩) ∧
    (provider model input = Except.error msg →
      jsIncludes msg "NSFW content detected" = false →
      jsIncludes msg "flagged as sensitive" = false →
      jsIncludes msg "402" = false →
      jsIncludes msg "Prediction failed" = true →
      runReplicateModel provider model input = Except.error
        ⟨"GENERATION_FAILED", some "Failed to generate. Please try again."⟩) ∧
    (provider model input = Except.error msg →
      jsIncludes msg "NSFW content detected" = false →
      jsIncludes msg "flagged as sensitive" = false →
      jsIncludes msg "402" = false →
      jsIncludes msg "Prediction failed" = false →
      (jsIncludes msg "rate limit" || jsIncludes msg "429") = true →
      runReplicateModel provider model input = Except.error
        ⟨"GENERATION_FAILED", some "Service is busy. Please try again in a moment."⟩) ∧
    (provider model input = Except.error msg →
      jsIncludes msg "NSFW content detected" = false →
      jsIncludes msg "flagged as sensitive" = false →
      jsIncludes msg "402" = false →
      jsIncludes msg "Prediction failed" = false →
      (jsIncludes msg "rate limit" || jsIncludes msg "429") = false →
      runReplicateModel provider model input = Except.error ⟨msg, none⟩) := by
  intro provider model input msg
  refine ⟨fun hp h1 => ?_, fun hp h1 h2 => ?_, fun hp h1 h2 h3 => ?_,
    fun hp h1 h2 h3 h4 => ?_, fun hp h1 h2 h3 h4 h5 => ?_,
    fun hp h1 h2 h3 h4 h5 => ?_⟩
  · simp [runReplicateModel, mapReplicateError, hp, h1]
  · simp [runReplicateModel, mapReplicateError, hp, h1, h2]
  · simp [runReplicateModel, mapReplicateError, hp, h1, h2, h3]
  · simp [runReplicateModel, mapReplicateError, hp, h1, h2, h3, h4]
  · simp [runReplicateModel, mapReplicateError, hp, h1, h2, h3, h4, h5]
  · simp [runReplicateModel, mapReplicateError, hp, h1, h2, h3, h4, h5]

/-- Witness for claim C3: a throttling message and an unmatched message. -/
theorem runReplicateModel_error_mapping_witness :
    runReplicateModel (fun _ _ => Except.error "boom 429") "m" payloadCat =
      Except.error ⟨"GENERATION_FAILED", some "Service is busy. Please try again in a moment."⟩ ∧
    runReplicateModel (fun _ _ => Except.error "mystery") "m" payloadCat =
      Except.error ⟨"mystery", none⟩ :=
  ⟨(runReplicateModel_error_mapping (fun _ _ => Except.error "boom 429")
      "m" payloadCat "boom 429").2.2.2.2.1 rfl rfl rfl rfl rfl rfl,
   (runReplicateModel_error_mapping (fun _ _ => Except.error "mystery")
      "m" payloadCat "mystery").2.2.2.2.2 rfl rfl rfl rfl rfl rfl⟩

/-! Claim C4. -/

/-- Claim C4: with the fixed daily limit 5, an unsubscribed user with no
generations today (no document, or a document with count 0 for today) is
Allowed-Free with remaining 5; a stored count of at least 5 for today is
Denied, with a 429 and neither provider call nor increment; a record from
another day is reset to 0 before the comparison; a subscribed user is
always Allowed-Subscribed whatever the stored count. -/
theorem checkGenerationLimit_quota :
    (∀ today uid, checkGenerationLimit today (some uid) false false none =
      (GuardOutcome.allowedFree 0 5, none)) ∧
    (∀ today uid, checkGenerationLimit today (some uid) false false (some ⟨0, today⟩) =
      (GuardOutcome.allowedFree 0 5, some ⟨0, today⟩)) ∧
    (∀ today uid c, c ≥ DAILY_LIMIT →
      checkGenerationLimit today (some uid) false false (some ⟨c, today⟩) =
        (GuardOutcome.denied, some ⟨c, today⟩)) ∧
    (∀ today c d, d ≠ today →
      getTodayGenerationCount today false (some ⟨c, d⟩) = (0, some ⟨0, today⟩)) ∧
    (∀ today uid c d, d ≠ today →
      checkGenerationLimit today (some uid) false false (some ⟨c, d⟩) =
        (GuardOutcome.allowedFree 0 5, some ⟨0, today⟩)) ∧
    (∀ today uid readFails store,
      checkGenerationLimit today (some uid) true readFails store =
        (GuardOutcome.allowedSubscribed, store)) ∧
    (∀ today uid c sharp provider payload, c ≥ DAILY_LIMIT →
      (handleGenerateImage today (some uid) false false (some ⟨c, today⟩)
          sharp provider payload).status = 429 ∧
      (handleGenerateImage today (some uid) false false (some ⟨c, today⟩)
          sharp provider payload).providerCalled = false ∧
      (handleGenerateImage today (some uid) false false (some ⟨c, today⟩)
          sharp provider payload).increments = 0) := by
  refine ⟨?_, ?_, ?_, ?_, ?_, ?_, ?_⟩
  · intro today uid
    simp [checkGenerationLimit, getTodayGenerationCount, DAILY_LIMIT]
  · intro today uid
    simp [checkGenerationLimit, getTodayGenerationCount, DAILY_LIMIT]
  · intro today uid c h
    simp only [DAILY_LIMIT] at h
    simp [checkGenerationLimit, getTodayGenerationCount, DAILY_LIMIT, h]
  · intro today c d h
    simp [getTodayGenerationCount, h]
  · intro today uid c d h
    simp [checkGenerationLimit, getTodayGenerationCount, DAILY_LIMIT, h]
  · intro today uid readFails store
    simp [checkGenerationLimit]
  · intro today uid c sharp provider payload h
    have hc : checkGenerationLimit today (some uid) false false (some ⟨c, today⟩) =
        (GuardOutcome.denied, some ⟨c, today⟩) := by
      simp only [DAILY_LIMIT] at h
      simp [checkGenerationLimit, getTodayGenerationCount, DAILY_LIMIT, h]
    simp [handleGenerateImage, hc]

/-- Witness for claim C4 at the scenario bounds: count 5 is denied with
no provider call, a stale record from day d0 is reset. -/
theorem checkGenerationLimit_quota_witness :
    checkGenerationLimit "d1" (some "u1") false false (some ⟨5, "d1"⟩) =
      (GuardOutcome.denied, some ⟨5, "d1"⟩) ∧
    getTodayGenerationCount "d1" false (some ⟨3, "d0"⟩) = (0, some ⟨0, "d1"⟩) ∧
    (handleGenerateImage "d1" (some "u1") false false (some ⟨5, "d1"⟩)
        sharpFailCex providerObjCex payloadCat).providerCalled = false :=
  ⟨(checkGenerationLimit_quota.2.2.1 "d1" "u1" 5 (by decide)),
   (checkGenerationLimit_quota.2.2.2.1 "d1" 3 "d0" (by decide)),
   (checkGenerationLimit_quota.2.2.2.2.2.2 "d1" "u1" 5
      sharpFailCex providerObjCex payloadCat (by decide)).2.1⟩

/-! Claim C5. -/

lemma normalizeImageArrayExif_eq_map (sharp : String → Except Unit String)
    (xs : List String) :
    normalizeImageArrayExif sharp xs = xs.map (normalizeImageExif sharp) := by
  cases xs <;> rfl

/-- Claim C5: normalizeImageExif never fails the caller (a failing sharp
pipeline returns the original input unchanged), and normalizeImageArrayExif
is elementwise: the output has the input length, element i is exactly the
independent normalization of input i, and an element whose pipeline fails
falls back to its own original without affecting the others. -/
theorem normalizeImage_fallback_elementwise :
    ∀ (sharp : String → Except Unit String) (img : String) (xs : List String) (i : Nat),
    (sharp (stripDataUri img) = Except.error () → normalizeImageExif sharp img = img) ∧
    (normalizeImageArrayExif sharp xs).length = xs.length ∧
    (∀ (h : i < xs.length) (h2 : i < (normalizeImageArrayExif sharp xs).length),
      (normalizeImageArrayExif sharp xs).get ⟨i, h2⟩ =
        normalizeImageExif sharp (xs.get ⟨i, h⟩)) ∧
    (∀ (h : i < xs.length) (h2 : i < (normalizeImageArrayExif sharp xs).length),
      sharp (stripDataUri (xs.get ⟨i, h⟩)) = Except.error () →
      (normalizeImageArrayExif sharp xs).get ⟨i, h2⟩ = xs.get ⟨i, h⟩) := by
  intro sharp img xs i
  refine ⟨?_, ?_, ?_, ?_⟩
  · intro h
    unfold normalizeImageExif
    rw [h]
  · rw [normalizeImageArrayExif_eq_map]
    simp
  · intro h h2
    simp [normalizeImageArrayExif_eq_map, List.get_eq_getElem, List.getElem_map]
  · intro h h2 hf
    simp only [List.get_eq_getElem] at hf
    simp [normalizeImageArrayExif_eq_map, List.get_eq_getElem, List.getElem_map]
    unfold normalizeImageExif
    rw [hf]

/-- Witness for claim C5: a two-element array where the first image fails
the pipeline and falls back while the second is re-encoded. -/
theorem normalizeImage_fallback_elementwise_witness :
    normalizeImageExif (fun s => if s = "AAA" then Except.error () else Except.ok s)
      "AAA" = "AAA" ∧
    (normalizeImageArrayExif
        (fun s => if s = "AAA" then Except.error () else Except.ok s)
        ["AAA", "BBB"]).get ⟨0, by decide⟩ = "AAA" :=
  ⟨(normalizeImage_fallback_elementwise
      (fun s => if s = "AAA" then Except.error () else Except.ok s)
      "AAA" [] 0).1 rfl,
   (normalizeImage_fallback_elementwise
      (fun s => if s = "AAA" then Except.error () else Except.ok s)
      "X" ["AAA", "BBB"] 0).2.2.2 (by decide) (by decide) rfl⟩

/-! Claim C6. -/

/-- Claim C6 counterexample: the 429 quota denial body is
{error, message, remaining: 0} with no success field, and the
missing-userId 400 body is {error} alone; neither is the claimed
{success: false, error, message} envelope. -/
theorem errorBody_envelope_counterexample :
    (handleGenerateImage "d1" (some "u1") false false (some ⟨5, "d1"⟩)
        sharpFailCex providerObjCex payloadCat).status = 429 ∧
    (handleGenerateImage "d1" (some "u1") false false (some ⟨5, "d1"⟩)
        sharpFailCex providerObjCex payloadCat).body = limitReachedBody ∧
    limitReachedBody.success = none ∧
    limitReachedBody.remaining = some 0 ∧
    (handleGenerateImage "d1" none false false none
        sharpFailCex providerObjCex payloadCat).body = userIdRequiredBody ∧
    userIdRequiredBody.success = none ∧
    userIdRequiredBody.message = none :=
  ⟨rfl, rfl, rfl, rfl, rfl, rfl, rfl⟩

/-- Claim C6 (amended): every body the global errorHandler produces has
exactly the {success: false, error, message} envelope, and a provider or
extraction failure inside the /generate-image route is answered with an
errorHandler body; the inline quota-guard and validation bodies (see the
counterexample) do not follow the envelope. -/
theorem errorHandler_body_envelope :
    (∀ err : ErrInfo, bodyEnvelope (errorHandler err).2) ∧
    (∀ today isSub remaining store sharp provider payload e,
      promptTruthy payload = true →
      generateImage sharp provider payload = Except.error e →
      (routeGenerateCore today isSub remaining store sharp provider payload).status =
        (errorHandler (genErrToErrInfo e)).1 ∧
      (routeGenerateCore today isSub remaining store sharp provider payload).body =
        (errorHandler (genErrToErrInfo e)).2) := by
  constructor
  · intro err
    unfold errorHandler errorHandlerDefault
    cases hsc : err.statusCode with
    | none =>
        split_ifs <;> simp [bodyEnvelope, emptyBody, hsc]
    | some c =>
        split_ifs <;> simp [bodyEnvelope, emptyBody, hsc] <;>
          split_ifs <;> simp [bodyEnvelope, emptyBody]
  · intro today isSub remaining store sharp provider payload e hp hg
    unfold routeGenerateCore
    simp [hp, hg]

/-! Claim C7. -/

/-- Claim C7 counterexample: in the styleImage.js extractor the value
returned by the url() accessor is accepted even when it is not
scheme-prefixed, instead of continuing with the later probes (the
errorHandling.js extractor rejects the same object). -/
theorem urlAccessor_scheme_counterexample :
    StyleImageJs.extractFromFileOutput cexNonHttpAccessorObj =
      Except.ok "file:///tmp/out.png" ∧
    jsStartsWith "file:///tmp/out.png" "http" = false ∧
    ErrorHandlingJs.extractFromFileOutput cexNonHttpAccessorObj =
      Except.error ExtractErr.fileOutputNoUrl :=
  ⟨rfl, rfl, rfl⟩

/-- Claim C7 (amended): the errorHandling.js extractor only ever returns
scheme-prefixed strings, and when its url() accessor returns a
non-scheme-prefixed string it continues with the later probes
(toString, then the alternate fields); the styleImage.js extractor
accepts any truthy string the accessor returns, without the scheme
check. -/
theorem urlAccessor_scheme_check :
    (∀ o u, ErrorHandlingJs.extractFromFileOutput o = Except.ok u →
      jsStartsWith u "http" = true) ∧
    (∀ o s, o.urlField = UrlField.func (CallOutcome.retStr s) →
      jsStartsWith s "http" = false →
      ErrorHandlingJs.extractFromFileOutput o = laterProbesChecked o) ∧
    (∀ o s, o.urlField = UrlField.func (CallOutcome.retStr s) →
      s.isEmpty = false →
      StyleImageJs.extractFromFileOutput o = Except.ok s) := by
  refine ⟨?_, ?_, ?_⟩
  · intro o u h
    unfold ErrorHandlingJs.extractFromFileOutput at h
    cases hc : orO (probeUrlMethodChecked o)
        (orO (probeUrlProp o)
          (orO (probeToStringHttp o) (ErrorHandlingJs.altChain o))) with
    | none => rw [hc] at h; cases h
    | some w =>
        rw [hc] at h
        simp at h
        subst h
        rcases orO_eq_some _ _ _ hc with h1 | h1
        · exact probeUrlMethodChecked_http o w h1
        rcases orO_eq_some _ _ _ h1 with h2 | h2
        · exact probeUrlProp_http o w h2
        rcases orO_eq_some _ _ _ h2 with h3 | h3
        · exact probeToStringHttp_http o w h3
        · exact altChain_http o w h3
  · intro o s ho hs
    have hm : probeUrlMethodChecked o = none := by
      cases he : s.isEmpty <;> simp [probeUrlMethodChecked, ho, hs, he]
    have hp : probeUrlProp o = none := by
      simp [probeUrlProp, ho]
    unfold ErrorHandlingJs.extractFromFileOutput laterProbesChecked
    rw [hm, hp]
    rfl
  · intro o s ho hs
    have hm : probeUrlMethodUnchecked o = some s := by
      simp [probeUrlMethodUnchecked, ho, hs]
    unfold StyleImageJs.extractFromFileOutput
    rw [hm]
    rfl

/-- Witness for the amended claim C7 at the counterexample object and the
url-method fixture. -/
theorem urlAccessor_scheme_check_witness :
    ErrorHandlingJs.extractFromFileOutput cexNonHttpAccessorObj =
      laterProbesChecked cexNonHttpAccessorObj ∧
    StyleImageJs.extractFromFileOutput cexNonHttpAccessorObj =
      Except.ok "file:///tmp/out.png" ∧
    jsStartsWith "http://img.example/ok.png" "http" = true :=
  ⟨urlAccessor_scheme_check.2.1 cexNonHttpAccessorObj "file:///tmp/out.png" rfl rfl,
   urlAccessor_scheme_check.2.2 cexNonHttpAccessorObj "file:///tmp/out.png" rfl rfl,
   urlAccessor_scheme_check.1 imgUrlObj "http://img.example/ok.png" rfl⟩

/-! Claim C8. -/

/-- Claim C8 counterexample: for a provider response that is a bare
http string, generateImage does not return the URL: its inline
extraction only accepts objects with a truthy url member, so it throws
"Model ran successfully but returned no image URL.". -/
theorem generateImage_bare_string_counterexample :
    providerStrCex "google/imagen-4" (normalizePayloadImages sharpFailCex payloadCat) =
      Except.ok (ProviderResponse.str "http://img.example/cat.png") ∧
    generateImage sharpFailCex providerStrCex payloadCat =
      Except.error GenErr.noImageUrl :=
  ⟨rfl, rfl⟩

/-- Claim C8 (amended): generateImage composes the prompt validation,
normalizePayloadImages, and runReplicateModel on google/imagen-4, but
extracts the URL with its own inline url-member probe rather than the
section 4.2 extractor: a bare-string response fails with the no-image-URL
error, while a response that is an object (or a non-empty sequence whose
first element is an object) whose url() returns a string succeeds with
that string; a falsy prompt fails before the provider is invoked. -/
theorem generateImage_inline_extraction :
    ∀ (sharp : String → Except Unit String)
      (provider : String → InputPayload → Except String ProviderResponse)
      (payload : InputPayload) (s u : String) (o : FileObj)
      (rest : List RespItem),
    (promptTruthy payload = true →
      provider "google/imagen-4" (normalizePayloadImages sharp payload) =
        Except.ok (ProviderResponse.str s) →
      generateImage sharp provider payload = Except.error GenErr.noImageUrl) ∧
    (promptTruthy payload = true →
      provider "google/imagen-4" (normalizePayloadImages sharp payload) =
        Except.ok (ProviderResponse.obj o) →
      o.urlField = UrlField.func (CallOutcome.retStr u) →
      generateImage sharp provider payload = Except.ok (UrlCallValue.str u)) ∧
    (promptTruthy payload = true →
      provider "google/imagen-4" (normalizePayloadImages sharp payload) =
        Except.ok (ProviderResponse.arr (RespItem.obj o :: rest)) →
      o.urlField = UrlField.func (CallOutcome.retStr u) →
      generateImage sharp provider payload = Except.ok (UrlCallValue.str u)) ∧
    (promptTruthy payload = false →
      generateImage sharp provider payload = Except.error GenErr.validationPrompt) := by
  intro sharp provider payload s u o rest
  refine ⟨fun hp hr => ?_, fun hp hr ho => ?_, fun hp hr ho => ?_, fun hp => ?_⟩
  · simp [generateImage, runReplicateModel, hp, hr, inlineExtract,
      itemTruthy, urlMemberTruthy]
  · simp [generateImage, runReplicateModel, hp, hr, inlineExtract,
      itemTruthy, urlMemberTruthy, ho]
  · simp [generateImage, runReplicateModel, hp, hr, inlineExtract,
      itemTruthy, urlMemberTruthy, ho]
  · simp [generateImage, hp]

/-- Witness for the amended claim C8 at the object fixture. -/
theorem generateImage_inline_extraction_witness :
    generateImage sharpFailCex providerObjCex payloadCat =
      Except.ok (UrlCallValue.str "http://img.example/ok.png") :=
  (generateImage_inline_extraction sharpFailCex providerObjCex payloadCat
      "x" "http://img.example/ok.png" imgUrlObj []).2.1 rfl rfl rfl

/-! Claim C9. -/

/-- Claim C9: the /generate-image route increments the stored count at
most once per call, never for a subscribed user, only on a successful
generation by a free user; provider or extraction failures leave the
store untouched; and the end-to-end scenario (unsubscribed u1 with count
4) succeeds with remaining 1 computed pre-increment, isSubscribed false,
and a stored count of 5 afterwards. -/
theorem generate_image_route_increment :
    (∀ today uid readFails store sharp provider payload,
      (handleGenerateImage today (some uid) true readFails store
        sharp provider payload).increments = 0) ∧
    (∀ today userId isSub readFails store sharp provider payload,
      (handleGenerateImage today userId isSub readFails store
        sharp provider payload).increments ≤ 1) ∧
    (∀ today userId isSub readFails store sharp provider payload,
      (handleGenerateImage today userId isSub readFails store
          sharp provider payload).increments = 1 →
      (handleGenerateImage today userId isSub readFails store
          sharp provider payload).status = 200 ∧
      (handleGenerateImage today userId isSub readFails store
          sharp provider payload).body.isSubscribed = some false) ∧
    (∀ today isSub remaining store sharp provider payload e,
      generateImage sharp provider payload = Except.error e →
      (routeGenerateCore today isSub remaining store
          sharp provider payload).increments = 0 ∧
      (routeGenerateCore today isSub remaining store
          sharp provider payload).store = store) ∧
    handleGenerateImage "d1" (some "u1") false false (some ⟨4, "d1"⟩)
        sharpFailCex providerObjCex payloadCat =
      ⟨200,
        { emptyBody with
          success := some true,
          imageUrl := some "http://img.example/ok.png",
          remaining := some 1,
          isSubscribed := some false },
        some ⟨5, "d1"⟩, 1, true⟩ := by
  refine ⟨?_, ?_, ?_, ?_, ?_⟩
  · intro today uid readFails store sharp provider payload
    simp only [handleGenerateImage, checkGenerationLimit, if_true]
    unfold routeGenerateCore
    split
    · rfl
    · split
      · rfl
      · rfl
  · intro today userId isSub readFails store sharp provider payload
    unfold handleGenerateImage routeGenerateCore
    split <;> try simp
    all_goals split <;> try simp
    all_goals split <;> simp
  · intro today userId isSub readFails store sharp provider payload
    unfold handleGenerateImage routeGenerateCore
    split <;> try simp
    all_goals split <;> try simp
    all_goals split <;> simp [successBody]
  · intro today isSub remaining store sharp provider payload e hg
    unfold routeGenerateCore
    cases hp : promptTruthy payload <;> simp [hp, hg]
  · rfl

/-- Witness for claim C9: a subscribed user never increments. -/
theorem generate_image_route_increment_witness :
    (handleGenerateImage "d1" (some "u1") true false (some ⟨4, "d1"⟩)
      sharpFailCex providerObjCex payloadCat).increments = 0 :=
  generate_image_route_increment.1 "d1" "u1" false (some ⟨4, "d1"⟩)
    sharpFailCex providerObjCex payloadCat

/-! Claim C10. -/

/-- Claim C10: incrementGenerationCount writes the previously stored
count (0 with no record) plus one and stamps the current day, for every
previously stored day - equal to today or not - and performs no reset of
a count recorded under a previous day. -/
theorem incrementGenerationCount_no_reset :
    (∀ today c d, incrementGenerationCount today (some ⟨c, d⟩) =
      some ⟨c + 1, today⟩) ∧
    (∀ today, incrementGenerationCount today none = some ⟨1, today⟩) :=
  ⟨fun _ _ _ => rfl, fun _ => rfl⟩
